/-
Verification development for the OpenOil oil-spill particle model
(`src/models/openoil.py`) and the numeric reader combinator
(`src/opendrift/readers/operators/numops.py`).

The particle ensemble is a structure of per-particle arrays, modelled as
functions `Fin n → ℝ` (mirroring numpy arrays of length `n`).  Machine
floats are modelled as real numbers; the one float behaviour that matters
for the claims — the undefined result of a division whose denominator is
exactly zero (IEEE NaN/Inf) — is modelled by `Option ℝ` with `none`
standing for the undefined value.  An IEEE comparison `NaN > r` (and
`-Inf > r` for `r ∈ [0,1)`) is false, which is modelled by `Option.elim
False`.  The Python `update()` raises `UnboundLocalError` when the
emulsification branch reads `Urel` without the evaporation branch having
bound it; this fallibility is modelled by `update` returning `Option`.

Stochastic draws (`np.random.rand`, `np.random.normal`) are modelled as
explicit inputs: `np.random.normal(0, s, n)` is `fun i => s * z i` with
`z` a standard-normal draw vector supplied in `Draws`.
-/
import Mathlib

namespace OpenOil

/-- Particle status enumeration, from `OpenOil.status_colors` and the spec's
lifecycle states. -/
inductive Status where
  | initial
  | active
  | missing_data
  | stranded
  | evaporated
  | dispersed
  deriving DecidableEq, Repr

/-- Configuration consumed by `update()`: the four `[processes]` booleans and
the three `[drift]` scalars of `configspec`. -/
structure Config where
  dispersion : Bool
  diffusion : Bool
  evaporation : Bool
  emulsification : Bool
  wind_drift_factor : ℝ
  current_uncertainty : ℝ
  wind_uncertainty : ℝ

/-- Oil-type reference data loaded in `OpenOil.__init__` from `prop.dat`:
lookup tables `tref → fref`, `tref → wmax` and the two scalar reference
constants. -/
structure OilModel where
  fref : List ℝ
  tref : List ℝ
  wmax : List ℝ
  reference_wind : ℝ
  reference_thickness : ℝ

/-- Per-particle state (one row of the `Oil` `LagrangianArray`), as parallel
arrays of length `n`. -/
structure Elements (n : ℕ) where
  x : Fin n → ℝ
  y : Fin n → ℝ
  depth : Fin n → ℝ
  mass_oil : Fin n → ℝ
  viscosity : Fin n → ℝ
  density : Fin n → ℝ
  age_seconds : Fin n → ℝ
  age_exposure_seconds : Fin n → ℝ
  age_emulsion_seconds : Fin n → ℝ
  mass_emulsion : Fin n → ℝ
  fraction_evaporated : Fin n → ℝ
  water_content : Fin n → ℝ
  status : Fin n → Status

/-- Environment snapshot: the `required_variables` of `OpenOil`, interpolated
by the (external) provider at each particle's pre-step position, as parallel
arrays aligned with the particle set. -/
structure Env (n : ℕ) where
  x_sea_water_velocity : Fin n → ℝ
  y_sea_water_velocity : Fin n → ℝ
  sea_surface_wave_significant_height : Fin n → ℝ
  sea_surface_wave_to_direction : Fin n → ℝ
  x_wind : Fin n → ℝ
  y_wind : Fin n → ℝ
  land_binary_mask : Fin n → ℝ

/-- Random draws consumed by one `update()` call: the per-particle uniform
draws of the evaporation step and the standard-normal draws behind the four
`np.random.normal` arrays of the diffusion step. -/
structure Draws (n : ℕ) where
  evap_rand : Fin n → ℝ
  current_noise_u : Fin n → ℝ
  current_noise_v : Fin n → ℝ
  wind_noise_u : Fin n → ℝ
  wind_noise_v : Fin n → ℝ

/-- Linear table lookup, the semantics of `np.interp(x, xs, fs)` on a table
given as a list of `(xs i, fs i)` pairs with strictly increasing first
components: clamped to the first value left of the table, to the last value
right of the table, linear in between, never extrapolated. -/
noncomputable def interp (x : ℝ) : List (ℝ × ℝ) → ℝ
  | [] => 0
  | [p] => p.2
  | p :: q :: rest =>
      if x ≤ p.1 then p.2
      else if x ≤ q.1 then p.2 + (q.2 - p.2) * (x - p.1) / (q.1 - p.1)
      else interp x (q :: rest)

open Classical in
/-- Modelled from the spec: `OpenDriftSimulation.deactivate_elements` is not
under `src/` (only its callers are).  Section 4.4 of the spec: every particle
where the predicate holds transitions to terminal status `reason`; terminal
particles are excluded, so only currently active particles transition (first
match wins, idempotent). -/
noncomputable def deactivate {n : ℕ} (mask : Fin n → Prop) (reason : Status)
    (e : Elements n) : Elements n :=
  { e with status := fun i =>
      if mask i ∧ e.status i = Status.active then reason else e.status i }

/-- Modelled from the spec: `OpenDriftSimulation.update_positions` is not
under `src/`.  Section 4.5 of the spec: each call advances position by
`(u, v) * Δt` (a projected longitude/latitude delta, modelled as a plain
additive displacement); terminal particles are excluded from per-timestep
arithmetic (section 3), so only active particles move. -/
noncomputable def update_positions {n : ℕ} (Δt : ℝ) (u v : Fin n → ℝ)
    (e : Elements n) : Elements n :=
  { e with
      x := fun i =>
        if e.status i = Status.active then e.x i + u i * Δt else e.x i,
      y := fun i =>
        if e.status i = Status.active then e.y i + v i * Δt else e.y i }

/-- Windspeed `np.sqrt(x_wind**2 + y_wind**2)` (openoil.py line 120). -/
noncomputable def windspeed {n : ℕ} (env : Env n) : Fin n → ℝ :=
  fun i => Real.sqrt (env.x_wind i ^ 2 + env.y_wind i ^ 2)

/-- Relative wind `Urel = windspeed / reference_wind` (openoil.py line 135),
bound inside the evaporation branch and reused by the emulsification
branch. -/
noncomputable def Urel {n : ℕ} (m : OilModel) (env : Env n) : Fin n → ℝ :=
  fun i => windspeed env i / m.reference_wind

/-- Exposure-age increment `(reference_thickness / h) * Urel * Δt` with the
film thickness `h` hardcoded to 2 mm (openoil.py lines 136-142). -/
noncomputable def delta_exposure_seconds {n : ℕ} (m : OilModel) (Δt : ℝ)
    (env : Env n) : Fin n → ℝ :=
  fun i => m.reference_thickness / 2 * Urel m env i * Δt

/-- Exposure age after the evaporation step: only particles at the surface
(`depth == 0`) receive the increment (openoil.py lines 130-147, array
branch). -/
noncomputable def newAgeExposure {n : ℕ} (m : OilModel) (Δt : ℝ) (env : Env n)
    (e : Elements n) : Fin n → ℝ :=
  fun i =>
    if e.depth i = 0 then
      e.age_exposure_seconds i + delta_exposure_seconds m Δt env i
    else e.age_exposure_seconds i

/-- Evaporated fraction after the evaporation step:
`np.interp(age_exposure_seconds, tref, fref)` (openoil.py lines 149-151). -/
noncomputable def newFractionEvaporated {n : ℕ} (m : OilModel) (Δt : ℝ)
    (env : Env n) (e : Elements n) : Fin n → ℝ :=
  fun i => interp (newAgeExposure m Δt env e i) (m.tref.zip m.fref)

/-- Per-particle evaporation probability as computed by openoil.py lines
157-160: the float division `(new - old) / (1 - old)` followed by the
overwrite `evaporation_probability[~at_surface] = 0`.  A zero denominator
makes the float division undefined (NaN or signed infinity); that undefined
value is modelled as `none`.  The code has no special case for
`fraction_evaporated == 1`. -/
noncomputable def evaporation_probability {n : ℕ} (m : OilModel) (Δt : ℝ)
    (env : Env n) (e : Elements n) : Fin n → Option ℝ :=
  fun i =>
    if e.depth i = 0 then
      if 1 - e.fraction_evaporated i = 0 then none
      else
        some ((newFractionEvaporated m Δt env e i - e.fraction_evaporated i) /
          (1 - e.fraction_evaporated i))
    else some 0

/-- Deactivation mask of the evaporation step (openoil.py lines 161-163):
`evaporation_probability > np.random.rand(...)` per particle.  The IEEE
comparison is false when the probability is the undefined value NaN (or
`-Inf`, the only infinity reachable from tables bounded by 1), modelled by
`Option.elim False`. -/
noncomputable def evapMask {n : ℕ} (m : OilModel) (Δt : ℝ) (env : Env n)
    (rand : Fin n → ℝ) (e : Elements n) : Fin n → Prop :=
  fun i => (evaporation_probability m Δt env e i).elim False fun p => rand i < p

/-- Evaporation block of `update()` (openoil.py lines 126-163): advance the
exposure age of surface particles, recompute the evaporated fraction for all
particles, then deactivate with reason `evaporated` where the probability
exceeds the particle's uniform draw. -/
noncomputable def evapStep {n : ℕ} (m : OilModel) (Δt : ℝ) (env : Env n)
    (rand : Fin n → ℝ) (e : Elements n) : Elements n :=
  deactivate (evapMask m Δt env rand e) Status.evaporated
    { e with
        age_exposure_seconds := newAgeExposure m Δt env e,
        fraction_evaporated := newFractionEvaporated m Δt env e }

/-- Emulsification block of `update()` (openoil.py lines 167-174): advance
the emulsion age of every particle by `Urel * Δt` and set the water content
from the `wmax` table. -/
noncomputable def emulStep {n : ℕ} (m : OilModel) (Δt : ℝ) (env : Env n)
    (e : Elements n) : Elements n :=
  { e with
      age_emulsion_seconds := fun i =>
        e.age_emulsion_seconds i + Urel m env i * Δt,
      water_content := fun i =>
        interp (e.age_emulsion_seconds i + Urel m env i * Δt)
          (m.tref.zip m.wmax) }

/-- Wave height actually used by the dispersion block: entries equal to 0 are
replaced (in place, in the environment's own array) by
`0.0246 * windspeed**2` (openoil.py lines 186-189). -/
noncomputable def waveHeightUsed {n : ℕ} (env : Env n) : Fin n → ℝ :=
  fun i =>
    if env.sea_surface_wave_significant_height i = 0 then
      0.0246 * windspeed env i ^ 2
    else env.sea_surface_wave_significant_height i

/-- Dissipated wave energy `0.0034 * sea_water_density * 9.81 * H**2` with
`sea_water_density = 1028` (openoil.py lines 184, 190-191). -/
noncomputable def dissipation_wave_energy {n : ℕ} (env : Env n) : Fin n → ℝ :=
  fun i => 0.0034 * 1028 * 9.81 * waveHeightUsed env i ^ 2

/-- Dispersion coefficient `dissipation**0.57 * fraction_breaking_waves` with
`fraction_breaking_waves = 0.02` (openoil.py lines 185, 192-193). -/
noncomputable def c_disp {n : ℕ} (env : Env n) : Fin n → ℝ :=
  fun i => dissipation_wave_energy env i ^ (0.57 : ℝ) * 0.02

/-- Roy's constant `2400 * exp(-73.682 * sqrt(viscosity / density))`
(openoil.py lines 195-196). -/
noncomputable def C_Roy {n : ℕ} (e : Elements n) : Fin n → ℝ :=
  fun i => 2400.0 * Real.exp (-73.682 * Real.sqrt (e.viscosity i / e.density i))

/-- Entrainment rate `q_disp = C_Roy * c_disp * v_entrain / density` with
`v_entrain = 3.9e-8` (openoil.py lines 183, 198). -/
noncomputable def q_disp {n : ℕ} (env : Env n) (e : Elements n) : Fin n → ℝ :=
  fun i => C_Roy e i * c_disp env i * 3.9e-8 / e.density i

/-- Dispersed mass `q_disp * Δt * density` (openoil.py lines 200-201). -/
noncomputable def oil_mass_loss {n : ℕ} (Δt : ℝ) (env : Env n)
    (e : Elements n) : Fin n → ℝ :=
  fun i => q_disp env e i * Δt * e.density i

/-- Element part of the dispersion block: `mass_oil -= oil_mass_loss`, with
no lower bound (openoil.py line 203). -/
noncomputable def dispStep {n : ℕ} (Δt : ℝ) (env : Env n) (e : Elements n) :
    Elements n :=
  { e with mass_oil := fun i => e.mass_oil i - oil_mass_loss Δt env e i }

/-- Environment object after `update()`: when dispersion runs, its wave
height array has been overwritten in place with `waveHeightUsed` (openoil.py
lines 186-189); otherwise it is untouched. -/
noncomputable def envAfterDispersion {n : ℕ} (cfg : Config) (env : Env n) :
    Env n :=
  if cfg.dispersion then
    { env with sea_surface_wave_significant_height := waveHeightUsed env }
  else env

/-- Land-stranding check (openoil.py lines 233-235): deactivate with reason
`stranded` where the environment's land mask equals 1. -/
noncomputable def strandStep {n : ℕ} (env : Env n) (e : Elements n) :
    Elements n :=
  deactivate (fun i => env.land_binary_mask i = 1) Status.stranded e

/-- Current-uncertainty displacement components of the diffusion block
(openoil.py lines 248-257): Gaussian with standard deviation
`current_uncertainty` when that is positive, otherwise the exactly-zero
array `0 * x_wind`. -/
noncomputable def currentSigma {n : ℕ} (cfg : Config) (env : Env n)
    (d : Draws n) : (Fin n → ℝ) × (Fin n → ℝ) :=
  if 0 < cfg.current_uncertainty then
    (fun i => cfg.current_uncertainty * d.current_noise_u i,
     fun i => cfg.current_uncertainty * d.current_noise_v i)
  else (fun i => 0 * env.x_wind i, fun i => 0 * env.x_wind i)

/-- Wind-uncertainty displacement components of the diffusion block
(openoil.py lines 260-269): Gaussian with standard deviation
`wind_uncertainty * wind_drift_factor` when both factors are positive,
otherwise the exactly-zero array `0 * x_wind`. -/
noncomputable def windSigma {n : ℕ} (cfg : Config) (env : Env n)
    (d : Draws n) : (Fin n → ℝ) × (Fin n → ℝ) :=
  if 0 < cfg.wind_drift_factor ∧ 0 < cfg.wind_uncertainty then
    (fun i => cfg.wind_uncertainty * cfg.wind_drift_factor * d.wind_noise_u i,
     fun i => cfg.wind_uncertainty * cfg.wind_drift_factor * d.wind_noise_v i)
  else (fun i => 0 * env.x_wind i, fun i => 0 * env.x_wind i)

/-- Body of `OpenOil.update` (openoil.py lines 113-270) on a run that does
not raise: age increment, then the evaporation, emulsification and
dispersion blocks (each guarded by its `[processes]` flag), then the
land-stranding check, then the current, wind-drag and (if enabled) the two
diffusion `update_positions` calls.  Returns the updated elements together
with the (possibly mutated) environment object. -/
noncomputable def updateRun {n : ℕ} (cfg : Config) (m : OilModel) (Δt : ℝ)
    (env : Env n) (d : Draws n) (e0 : Elements n) : Elements n × Env n :=
  let e1 := { e0 with age_seconds := fun i => e0.age_seconds i + Δt }
  let e2 := if cfg.evaporation then evapStep m Δt env d.evap_rand e1 else e1
  let e3 := if cfg.emulsification then emulStep m Δt env e2 else e2
  let e4 := if cfg.dispersion then dispStep Δt env e3 else e3
  let env2 := envAfterDispersion cfg env
  let e5 := strandStep env2 e4
  let e6 := update_positions Δt env2.x_sea_water_velocity
    env2.y_sea_water_velocity e5
  let e7 := update_positions Δt
    (fun i => env2.x_wind i * cfg.wind_drift_factor)
    (fun i => env2.y_wind i * cfg.wind_drift_factor) e6
  let e8 :=
    if cfg.diffusion then
      update_positions Δt (windSigma cfg env2 d).1 (windSigma cfg env2 d).2
        (update_positions Δt (currentSigma cfg env2 d).1
          (currentSigma cfg env2 d).2 e7)
    else e7
  (e8, env2)

/-- One `OpenOil.update` call.  The local `Urel` is bound only inside the
evaporation branch (openoil.py line 135) but read by the emulsification
branch (line 170), so with emulsification enabled and evaporation disabled
the Python call raises `UnboundLocalError`; that failure is `none`. -/
noncomputable def update {n : ℕ} (cfg : Config) (m : OilModel) (Δt : ℝ)
    (env : Env n) (d : Draws n) (e : Elements n) :
    Option (Elements n × Env n) :=
  if cfg.emulsification = true ∧ cfg.evaporation = false then none
  else some (updateRun cfg m Δt env d e)

/-- State reached by the inline body of `update()` just before the
land-stranding check: the age increment and the three weathering blocks. -/
noncomputable def elementsBeforeStrand {n : ℕ} (cfg : Config) (m : OilModel)
    (Δt : ℝ) (env : Env n) (d : Draws n) (e0 : Elements n) : Elements n :=
  let e1 := { e0 with age_seconds := fun i => e0.age_seconds i + Δt }
  let e2 := if cfg.evaporation then evapStep m Δt env d.evap_rand e1 else e1
  let e3 := if cfg.emulsification then emulStep m Δt env e2 else e2
  if cfg.dispersion then dispStep Δt env e3 else e3

/-- State reached by the body of `update()` after the current and wind-drag
`update_positions` calls, just before the diffusion block. -/
noncomputable def elementsBeforeDiffusion {n : ℕ} (cfg : Config)
    (m : OilModel) (Δt : ℝ) (env : Env n) (d : Draws n) (e0 : Elements n) :
    Elements n :=
  let env2 := envAfterDispersion cfg env
  let e5 := strandStep env2 (elementsBeforeStrand cfg m Δt env d e0)
  let e6 := update_positions Δt env2.x_sea_water_velocity
    env2.y_sea_water_velocity e5
  update_positions Δt
    (fun i => env2.x_wind i * cfg.wind_drift_factor)
    (fun i => env2.y_wind i * cfg.wind_drift_factor) e6

/-- Trajectory of the particle ensemble over successive `update()` calls,
the environment being re-supplied by the provider at every step; a raising
step poisons the rest of the trajectory. -/
noncomputable def trajectory {n : ℕ} (cfgs : ℕ → Config) (m : OilModel)
    (Δts : ℕ → ℝ) (envs : ℕ → Env n) (ds : ℕ → Draws n) (e0 : Elements n) :
    ℕ → Option (Elements n)
  | 0 => some e0
  | k + 1 =>
      (trajectory cfgs m Δts envs ds e0 k).bind fun ek =>
        (update (cfgs k) m (Δts k) (envs k) (ds k) ek).map Prod.fst

/-- Coherence invariant tying the stored evaporated fraction to the lookup
table: it lies in `[0,1]` and does not exceed the table value at the stored
exposure age.  Freshly seeded particles (fraction 0, any age) satisfy it
whenever the table values are nonnegative. -/
noncomputable def Coherent {n : ℕ} (m : OilModel) (e : Elements n) : Prop :=
  ∀ i, e.fraction_evaporated i ∈ Set.Icc (0 : ℝ) 1 ∧
    e.fraction_evaporated i ≤
      interp (e.age_exposure_seconds i) (m.tref.zip m.fref)

/-- Monotone-table hypothesis on a zipped lookup table: strictly increasing
time axis, non-decreasing values (spec section 3). -/
def MonoTable (l : List (ℝ × ℝ)) : Prop :=
  l.Chain' fun p q => p.1 < q.1 ∧ p.2 ≤ q.2

/-- Test-vector oil model: two-row tables (`tref` hours 0 and 1, i.e. 0 s and
3600 s), evaporated fraction reaching 1/2, water content reaching 7/10,
reference wind 1 m/s, reference thickness 2 mm. -/
noncomputable def exModel : OilModel :=
  { fref := [0, 1 / 2], tref := [0, 3600], wmax := [0, 7 / 10],
    reference_wind := 1, reference_thickness := 2 }

/-- Test-vector oil model whose evaporation table is the constant 1: a fully
evaporable oil, so a fully evaporated particle stays at fraction 1. -/
noncomputable def exModelFull : OilModel :=
  { fref := [1], tref := [0], wmax := [1],
    reference_wind := 1, reference_thickness := 2 }

/-- Test-vector environment for one particle: calm sea, no wind, open
water. -/
noncomputable def exEnvCalm : Env 1 :=
  { x_sea_water_velocity := fun _ => 0, y_sea_water_velocity := fun _ => 0,
    sea_surface_wave_significant_height := fun _ => 0,
    sea_surface_wave_to_direction := fun _ => 0,
    x_wind := fun _ => 0, y_wind := fun _ => 0,
    land_binary_mask := fun _ => 0 }

/-- Test-vector environment for one particle: wind (1, 0) m/s, no waves, and
the particle's position is on land (`land_binary_mask = 1`). -/
noncomputable def exEnvLand : Env 1 :=
  { x_sea_water_velocity := fun _ => 0, y_sea_water_velocity := fun _ => 0,
    sea_surface_wave_significant_height := fun _ => 0,
    sea_surface_wave_to_direction := fun _ => 0,
    x_wind := fun _ => 1, y_wind := fun _ => 0,
    land_binary_mask := fun _ => 1 }

/-- Test-vector environment for the spec section 8 dispersion scenario: wave
height 2 m, wind (5, 0) m/s, open water. -/
noncomputable def exEnvWave : Env 1 :=
  { x_sea_water_velocity := fun _ => 0, y_sea_water_velocity := fun _ => 0,
    sea_surface_wave_significant_height := fun _ => 2,
    sea_surface_wave_to_direction := fun _ => 0,
    x_wind := fun _ => 5, y_wind := fun _ => 0,
    land_binary_mask := fun _ => 0 }

/-- Test-vector draws: every random draw is 0 (a legal value for the uniform
draws of `np.random.rand`, which lie in `[0, 1)`). -/
noncomputable def exDraws : Draws 1 :=
  { evap_rand := fun _ => 0, current_noise_u := fun _ => 0,
    current_noise_v := fun _ => 0, wind_noise_u := fun _ => 0,
    wind_noise_v := fun _ => 0 }

/-- Test-vector particle: one freshly seeded active surface particle with the
`Oil` schema defaults (`mass_oil = 1000` kg as in the spec section 8
scenario, `viscosity = 0.5`, `density = 800`, ages and fractions 0). -/
noncomputable def exElems : Elements 1 :=
  { x := fun _ => 0, y := fun _ => 0, depth := fun _ => 0,
    mass_oil := fun _ => 1000, viscosity := fun _ => 1 / 2,
    density := fun _ => 800, age_seconds := fun _ => 0,
    age_exposure_seconds := fun _ => 0, age_emulsion_seconds := fun _ => 0,
    mass_emulsion := fun _ => 0, fraction_evaporated := fun _ => 0,
    water_content := fun _ => 0, status := fun _ => Status.active }

/-- Test-vector particle whose evaporated fraction is exactly 1. -/
noncomputable def exElemsFrac1 : Elements 1 :=
  { exElems with fraction_evaporated := fun _ => 1 }

/-- Test-vector particle with no remaining oil mass. -/
noncomputable def exElemsZeroMass : Elements 1 :=
  { exElems with mass_oil := fun _ => 0 }

/-- Test-vector particle below the surface (depth 10 m). -/
noncomputable def exElemsDeep : Elements 1 :=
  { exElems with depth := fun _ => 10 }

/-- Configuration with only evaporation enabled and all drift scalars 0. -/
noncomputable def cfgEvapOnly : Config :=
  { dispersion := false, diffusion := false, evaporation := true,
    emulsification := false, wind_drift_factor := 0,
    current_uncertainty := 0, wind_uncertainty := 0 }

/-- Configuration with emulsification enabled but evaporation disabled: the
configuration on which `update()` raises `UnboundLocalError`. -/
noncomputable def cfgEmulNoEvap : Config :=
  { dispersion := false, diffusion := false, evaporation := false,
    emulsification := true, wind_drift_factor := 0,
    current_uncertainty := 0, wind_uncertainty := 0 }

/-- Configuration with evaporation and emulsification enabled. -/
noncomputable def cfgEvapEmul : Config :=
  { dispersion := false, diffusion := false, evaporation := true,
    emulsification := true, wind_drift_factor := 0,
    current_uncertainty := 0, wind_uncertainty := 0 }

/-- Configuration with only dispersion enabled. -/
noncomputable def cfgDispOnly : Config :=
  { dispersion := true, diffusion := false, evaporation := false,
    emulsification := false, wind_drift_factor := 0,
    current_uncertainty := 0, wind_uncertainty := 0 }

/-- Configuration with only diffusion enabled, zero current uncertainty and
zero wind drift factor. -/
noncomputable def cfgDiffOnly : Config :=
  { dispersion := false, diffusion := true, evaporation := false,
    emulsification := false, wind_drift_factor := 0,
    current_uncertainty := 0, wind_uncertainty := 1 }

end OpenOil

namespace NumOps

/-- Wrapped reader, reduced to the one method the combinator overrides:
`_get_variables_interpolated_` returns the `env` and `env_profiles`
dictionaries (modelled as association lists from variable name to value
array) for given arguments. -/
structure Reader (α : Type) where
  getVars : α → List (String × List ℚ) × List (String × List ℚ)

/-- The `Combined` class of numops.py: a number, a wrapped reader and the
scalar operation closed over the number. -/
structure Combined (α : Type) where
  n : ℚ
  r : Reader α
  op : ℚ → ℚ

/-- Static constructor `Combined.add` (numops.py lines 28-30). -/
def Combined.add {α : Type} (n : ℚ) (r : Reader α) : Combined α :=
  ⟨n, r, fun x => n + x⟩

/-- Static constructor `Combined.mul` (numops.py lines 32-34). -/
def Combined.mul {α : Type} (n : ℚ) (r : Reader α) : Combined α :=
  ⟨n, r, fun x => n * x⟩

/-- Static constructor `Combined.sub` (numops.py lines 36-38). -/
def Combined.sub {α : Type} (n : ℚ) (r : Reader α) : Combined α :=
  ⟨n, r, fun x => x - n⟩

/-- Static constructor `Combined.div` (numops.py lines 40-42). -/
def Combined.div {α : Type} (n : ℚ) (r : Reader α) : Combined α :=
  ⟨n, r, fun x => x / n⟩

/-- Loop body of `_get_variables_interpolated_` (numops.py lines 54-66):
apply the operation to every variable of a dictionary except the keys `x`,
`y` and `time`; numpy broadcasting makes the scalar operation elementwise on
the value array. -/
def applyOpEnv (op : ℚ → ℚ) (env : List (String × List ℚ)) :
    List (String × List ℚ) :=
  env.map fun kv =>
    if kv.1 = "x" ∨ kv.1 = "y" ∨ kv.1 = "time" then kv
    else (kv.1, kv.2.map op)

/-- Method `Combined._get_variables_interpolated_` (numops.py lines 51-68):
delegate to the wrapped reader, then transform both returned dictionaries. -/
def Combined.getVariablesInterpolated {α : Type} (c : Combined α) (args : α) :
    List (String × List ℚ) × List (String × List ℚ) :=
  let p := c.r.getVars args
  (applyOpEnv c.op p.1, applyOpEnv c.op p.2)

/-- Test-vector reader: one coordinate variable and one data variable in each
returned dictionary. -/
def exReader : Reader Unit :=
  ⟨fun _ => ([("x", [1]), ("temp", [2, 3])], [("y", [4]), ("sal", [5])])⟩

end NumOps

namespace OpenOil

variable {n : ℕ}

/-! Field-preservation facts for the phase functions, all definitional. -/

@[simp] theorem deactivate_x (mask : Fin n → Prop) (r : Status)
    (e : Elements n) : (deactivate mask r e).x = e.x := rfl

@[simp] theorem deactivate_y (mask : Fin n → Prop) (r : Status)
    (e : Elements n) : (deactivate mask r e).y = e.y := rfl

@[simp] theorem deactivate_depth (mask : Fin n → Prop) (r : Status)
    (e : Elements n) : (deactivate mask r e).depth = e.depth := rfl

@[simp] theorem deactivate_mass_oil (mask : Fin n → Prop) (r : Status)
    (e : Elements n) : (deactivate mask r e).mass_oil = e.mass_oil := rfl

@[simp] theorem deactivate_viscosity (mask : Fin n → Prop) (r : Status)
    (e : Elements n) : (deactivate mask r e).viscosity = e.viscosity := rfl

@[simp] theorem deactivate_density (mask : Fin n → Prop) (r : Status)
    (e : Elements n) : (deactivate mask r e).density = e.density := rfl

@[simp] theorem deactivate_age_exposure (mask : Fin n → Prop) (r : Status)
    (e : Elements n) :
    (deactivate mask r e).age_exposure_seconds = e.age_exposure_seconds := rfl

@[simp] theorem deactivate_age_emulsion (mask : Fin n → Prop) (r : Status)
    (e : Elements n) :
    (deactivate mask r e).age_emulsion_seconds = e.age_emulsion_seconds := rfl

@[simp] theorem deactivate_fraction (mask : Fin n → Prop) (r : Status)
    (e : Elements n) :
    (deactivate mask r e).fraction_evaporated = e.fraction_evaporated := rfl

@[simp] theorem deactivate_water (mask : Fin n → Prop) (r : Status)
    (e : Elements n) :
    (deactivate mask r e).water_content = e.water_content := rfl

open Classical in
theorem deactivate_status (mask : Fin n → Prop) (r : Status) (e : Elements n)
    (i : Fin n) :
    (deactivate mask r e).status i =
      if mask i ∧ e.status i = Status.active then r else e.status i := rfl

@[simp] theorem update_positions_depth (Δt : ℝ) (u v : Fin n → ℝ)
    (e : Elements n) : (update_positions Δt u v e).depth = e.depth := rfl

@[simp] theorem update_positions_mass_oil (Δt : ℝ) (u v : Fin n → ℝ)
    (e : Elements n) : (update_positions Δt u v e).mass_oil = e.mass_oil := rfl

@[simp] theorem update_positions_viscosity (Δt : ℝ) (u v : Fin n → ℝ)
    (e : Elements n) :
    (update_positions Δt u v e).viscosity = e.viscosity := rfl

@[simp] theorem update_positions_density (Δt : ℝ) (u v : Fin n → ℝ)
    (e : Elements n) : (update_positions Δt u v e).density = e.density := rfl

@[simp] theorem update_positions_age_exposure (Δt : ℝ) (u v : Fin n → ℝ)
    (e : Elements n) :
    (update_positions Δt u v e).age_exposure_seconds =
      e.age_exposure_seconds := rfl

@[simp] theorem update_positions_age_emulsion (Δt : ℝ) (u v : Fin n → ℝ)
    (e : Elements n) :
    (update_positions Δt u v e).age_emulsion_seconds =
      e.age_emulsion_seconds := rfl

@[simp] theorem update_positions_fraction (Δt : ℝ) (u v : Fin n → ℝ)
    (e : Elements n) :
    (update_positions Δt u v e).fraction_evaporated =
      e.fraction_evaporated := rfl

@[simp] theorem update_positions_water (Δt : ℝ) (u v : Fin n → ℝ)
    (e : Elements n) :
    (update_positions Δt u v e).water_content = e.water_content := rfl

@[simp] theorem update_positions_status (Δt : ℝ) (u v : Fin n → ℝ)
    (e : Elements n) : (update_positions Δt u v e).status = e.status := rfl

theorem update_positions_x (Δt : ℝ) (u v : Fin n → ℝ) (e : Elements n)
    (i : Fin n) :
    (update_positions Δt u v e).x i =
      if e.status i = Status.active then e.x i + u i * Δt else e.x i := rfl

@[simp] theorem evapStep_x (m : OilModel) (Δt : ℝ) (env : Env n)
    (rand : Fin n → ℝ) (e : Elements n) :
    (evapStep m Δt env rand e).x = e.x := rfl

@[simp] theorem evapStep_y (m : OilModel) (Δt : ℝ) (env : Env n)
    (rand : Fin n → ℝ) (e : Elements n) :
    (evapStep m Δt env rand e).y = e.y := rfl

@[simp] theorem evapStep_depth (m : OilModel) (Δt : ℝ) (env : Env n)
    (rand : Fin n → ℝ) (e : Elements n) :
    (evapStep m Δt env rand e).depth = e.depth := rfl

@[simp] theorem evapStep_mass_oil (m : OilModel) (Δt : ℝ) (env : Env n)
    (rand : Fin n → ℝ) (e : Elements n) :
    (evapStep m Δt env rand e).mass_oil = e.mass_oil := rfl

@[simp] theorem evapStep_viscosity (m : OilModel) (Δt : ℝ) (env : Env n)
    (rand : Fin n → ℝ) (e : Elements n) :
    (evapStep m Δt env rand e).viscosity = e.viscosity := rfl

@[simp] theorem evapStep_density (m : OilModel) (Δt : ℝ) (env : Env n)
    (rand : Fin n → ℝ) (e : Elements n) :
    (evapStep m Δt env rand e).density = e.density := rfl

@[simp] theorem evapStep_age_emulsion (m : OilModel) (Δt : ℝ) (env : Env n)
    (rand : Fin n → ℝ) (e : Elements n) :
    (evapStep m Δt env rand e).age_emulsion_seconds =
      e.age_emulsion_seconds := rfl

@[simp] theorem evapStep_water (m : OilModel) (Δt : ℝ) (env : Env n)
    (rand : Fin n → ℝ) (e : Elements n) :
    (evapStep m Δt env rand e).water_content = e.water_content := rfl

@[simp] theorem evapStep_age_exposure (m : OilModel) (Δt : ℝ) (env : Env n)
    (rand : Fin n → ℝ) (e : Elements n) :
    (evapStep m Δt env rand e).age_exposure_seconds =
      newAgeExposure m Δt env e := rfl

@[simp] theorem evapStep_fraction (m : OilModel) (Δt : ℝ) (env : Env n)
    (rand : Fin n → ℝ) (e : Elements n) :
    (evapStep m Δt env rand e).fraction_evaporated =
      newFractionEvaporated m Δt env e := rfl

open Classical in
theorem evapStep_status (m : OilModel) (Δt : ℝ) (env : Env n)
    (rand : Fin n → ℝ) (e : Elements n) (i : Fin n) :
    (evapStep m Δt env rand e).status i =
      if evapMask m Δt env rand e i ∧ e.status i = Status.active then
        Status.evaporated
      else e.status i := rfl

@[simp] theorem emulStep_x (m : OilModel) (Δt : ℝ) (env : Env n)
    (e : Elements n) : (emulStep m Δt env e).x = e.x := rfl

@[simp] theorem emulStep_y (m : OilModel) (Δt : ℝ) (env : Env n)
    (e : Elements n) : (emulStep m Δt env e).y = e.y := rfl

@[simp] theorem emulStep_depth (m : OilModel) (Δt : ℝ) (env : Env n)
    (e : Elements n) : (emulStep m Δt env e).depth = e.depth := rfl

@[simp] theorem emulStep_mass_oil (m : OilModel) (Δt : ℝ) (env : Env n)
    (e : Elements n) : (emulStep m Δt env e).mass_oil = e.mass_oil := rfl

@[simp] theorem emulStep_viscosity (m : OilModel) (Δt : ℝ) (env : Env n)
    (e : Elements n) : (emulStep m Δt env e).viscosity = e.viscosity := rfl

@[simp] theorem emulStep_density (m : OilModel) (Δt : ℝ) (env : Env n)
    (e : Elements n) : (emulStep m Δt env e).density = e.density := rfl

@[simp] theorem emulStep_age_exposure (m : OilModel) (Δt : ℝ) (env : Env n)
    (e : Elements n) :
    (emulStep m Δt env e).age_exposure_seconds = e.age_exposure_seconds := rfl

@[simp] theorem emulStep_fraction (m : OilModel) (Δt : ℝ) (env : Env n)
    (e : Elements n) :
    (emulStep m Δt env e).fraction_evaporated = e.fraction_evaporated := rfl

@[simp] theorem emulStep_status (m : OilModel) (Δt : ℝ) (env : Env n)
    (e : Elements n) : (emulStep m Δt env e).status = e.status := rfl

@[simp] theorem emulStep_age_emulsion (m : OilModel) (Δt : ℝ) (env : Env n)
    (e : Elements n) (i : Fin n) :
    (emulStep m Δt env e).age_emulsion_seconds i =
      e.age_emulsion_seconds i + Urel m env i * Δt := rfl

@[simp] theorem emulStep_water (m : OilModel) (Δt : ℝ) (env : Env n)
    (e : Elements n) (i : Fin n) :
    (emulStep m Δt env e).water_content i =
      interp (e.age_emulsion_seconds i + Urel m env i * Δt)
        (m.tref.zip m.wmax) := rfl

@[simp] theorem dispStep_x (Δt : ℝ) (env : Env n) (e : Elements n) :
    (dispStep Δt env e).x = e.x := rfl

@[simp] theorem dispStep_y (Δt : ℝ) (env : Env n) (e : Elements n) :
    (dispStep Δt env e).y = e.y := rfl

@[simp] theorem dispStep_depth (Δt : ℝ) (env : Env n) (e : Elements n) :
    (dispStep Δt env e).depth = e.depth := rfl

@[simp] theorem dispStep_viscosity (Δt : ℝ) (env : Env n) (e : Elements n) :
    (dispStep Δt env e).viscosity = e.viscosity := rfl

@[simp] theorem dispStep_density (Δt : ℝ) (env : Env n) (e : Elements n) :
    (dispStep Δt env e).density = e.density := rfl

@[simp] theorem dispStep_age_exposure (Δt : ℝ) (env : Env n)
    (e : Elements n) :
    (dispStep Δt env e).age_exposure_seconds = e.age_exposure_seconds := rfl

@[simp] theorem dispStep_age_emulsion (Δt : ℝ) (env : Env n)
    (e : Elements n) :
    (dispStep Δt env e).age_emulsion_seconds = e.age_emulsion_seconds := rfl

@[simp] theorem dispStep_fraction (Δt : ℝ) (env : Env n) (e : Elements n) :
    (dispStep Δt env e).fraction_evaporated = e.fraction_evaporated := rfl

@[simp] theorem dispStep_water (Δt : ℝ) (env : Env n) (e : Elements n) :
    (dispStep Δt env e).water_content = e.water_content := rfl

@[simp] theorem dispStep_status (Δt : ℝ) (env : Env n) (e : Elements n) :
    (dispStep Δt env e).status = e.status := rfl

@[simp] theorem dispStep_mass_oil (Δt : ℝ) (env : Env n) (e : Elements n)
    (i : Fin n) :
    (dispStep Δt env e).mass_oil i =
      e.mass_oil i - oil_mass_loss Δt env e i := rfl

@[simp] theorem strandStep_x (env : Env n) (e : Elements n) :
    (strandStep env e).x = e.x := rfl

@[simp] theorem strandStep_y (env : Env n) (e : Elements n) :
    (strandStep env e).y = e.y := rfl

@[simp] theorem strandStep_depth (env : Env n) (e : Elements n) :
    (strandStep env e).depth = e.depth := rfl

@[simp] theorem strandStep_mass_oil (env : Env n) (e : Elements n) :
    (strandStep env e).mass_oil = e.mass_oil := rfl

@[simp] theorem strandStep_age_exposure (env : Env n) (e : Elements n) :
    (strandStep env e).age_exposure_seconds = e.age_exposure_seconds := rfl

@[simp] theorem strandStep_age_emulsion (env : Env n) (e : Elements n) :
    (strandStep env e).age_emulsion_seconds = e.age_emulsion_seconds := rfl

@[simp] theorem strandStep_fraction (env : Env n) (e : Elements n) :
    (strandStep env e).fraction_evaporated = e.fraction_evaporated := rfl

@[simp] theorem strandStep_water (env : Env n) (e : Elements n) :
    (strandStep env e).water_content = e.water_content := rfl

open Classical in
theorem strandStep_status (env : Env n) (e : Elements n) (i : Fin n) :
    (strandStep env e).status i =
      if env.land_binary_mask i = 1 ∧ e.status i = Status.active then
        Status.stranded
      else e.status i := rfl

@[simp] theorem envAfterDispersion_land (cfg : Config) (env : Env n) :
    (envAfterDispersion cfg env).land_binary_mask = env.land_binary_mask := by
  unfold envAfterDispersion
  split
  · rfl
  · rfl

/-! Lookup-table lemmas for `interp`. -/

theorem interp_singleton (x : ℝ) (p : ℝ × ℝ) : interp x [p] = p.2 := rfl

theorem interp_cons_left (x : ℝ) (p q : ℝ × ℝ) (t : List (ℝ × ℝ))
    (h : x ≤ p.1) : interp x (p :: q :: t) = p.2 := by
  simp [interp, h]

theorem interp_cons_mid (x : ℝ) (p q : ℝ × ℝ) (t : List (ℝ × ℝ))
    (h1 : ¬ x ≤ p.1) (h2 : x ≤ q.1) :
    interp x (p :: q :: t) =
      p.2 + (q.2 - p.2) * (x - p.1) / (q.1 - p.1) := by
  simp [interp, h1, h2]

theorem interp_cons_right (x : ℝ) (p q : ℝ × ℝ) (t : List (ℝ × ℝ))
    (h1 : ¬ x ≤ p.1) (h2 : ¬ x ≤ q.1) :
    interp x (p :: q :: t) = interp x (q :: t) := by
  simp [interp, h1, h2]

/-- On a monotone table, every lookup value is at least the first table
value. -/
theorem interp_head_le (t : List (ℝ × ℝ)) :
    ∀ p : ℝ × ℝ, MonoTable (p :: t) → ∀ z : ℝ, p.2 ≤ interp z (p :: t) := by
  induction t with
  | nil => intro p _ z; simp [interp]
  | cons q t ih =>
    intro p h z
    simp only [MonoTable, List.chain'_cons] at h
    obtain ⟨⟨hpq1, hpq2⟩, hqt⟩ := h
    by_cases h1 : z ≤ p.1
    · rw [interp_cons_left z p q t h1]
    · by_cases h2 : z ≤ q.1
      · rw [interp_cons_mid z p q t h1 h2]
        have hD : 0 < q.1 - p.1 := by linarith
        have hnum : 0 ≤ (q.2 - p.2) * (z - p.1) :=
          mul_nonneg (by linarith) (by linarith)
        have := div_nonneg hnum hD.le
        linarith
      · rw [interp_cons_right z p q t h1 h2]
        exact le_trans hpq2 (ih q hqt z)

/-- On a table with strictly increasing time axis and values in `[0, 1]`,
every lookup value lies in `[0, 1]`. -/
theorem interp_mem_Icc (t : List (ℝ × ℝ)) :
    MonoTable t → (∀ p ∈ t, p.2 ∈ Set.Icc (0 : ℝ) 1) →
      ∀ x : ℝ, interp x t ∈ Set.Icc (0 : ℝ) 1 := by
  induction t with
  | nil => intro _ _ x; simp [interp]
  | cons p t ih =>
    cases t with
    | nil =>
      intro _ hv x
      simpa [interp] using hv p (by simp)
    | cons q t' =>
      intro hm hv x
      have hmem : MonoTable (q :: t') ∧ p.1 < q.1 ∧ p.2 ≤ q.2 := by
        simp only [MonoTable, List.chain'_cons] at hm ⊢
        exact ⟨hm.2, hm.1.1, hm.1.2⟩
      obtain ⟨hqt, hpq1, hpq2⟩ := hmem
      have hp := hv p (by simp)
      have hq := hv q (by simp)
      by_cases h1 : x ≤ p.1
      · rw [interp_cons_left x p q t' h1]; exact hp
      · by_cases h2 : x ≤ q.1
        · rw [interp_cons_mid x p q t' h1 h2]
          have hD : 0 < q.1 - p.1 := by linarith
          have hr0 : 0 ≤ (x - p.1) / (q.1 - p.1) :=
            div_nonneg (by linarith) hD.le
          have hr1 : (x - p.1) / (q.1 - p.1) ≤ 1 :=
            (div_le_one hD).mpr (by linarith)
          rw [mul_div_assoc]
          obtain ⟨hp0, hp1⟩ := hp
          obtain ⟨hq0, hq1⟩ := hq
          constructor
          · nlinarith [mul_nonneg hr0 hq0,
              mul_nonneg (sub_nonneg.mpr hr1) hp0]
          · nlinarith [mul_nonneg (sub_nonneg.mpr hr1) (sub_nonneg.mpr hp1),
              mul_nonneg hr0 (sub_nonneg.mpr hq1)]
        · rw [interp_cons_right x p q t' h1 h2]
          exact ih hqt (fun r hr => hv r (by simp [hr])) x


/-- On a monotone table (strictly increasing time axis, non-decreasing
values) the lookup is monotone in its argument: interpolation between
non-decreasing values, clamped at both ends, never decreases. -/
theorem interp_mono (t : List (ℝ × ℝ)) :
    MonoTable t → ∀ x y : ℝ, x ≤ y → interp x t ≤ interp y t := by
  induction t with
  | nil => intro _ x y _; simp [interp]
  | cons p t ih =>
    cases t with
    | nil => intro _ x y _; simp [interp]
    | cons q t' =>
      intro hm x y hxy
      have hm' := hm
      simp only [MonoTable, List.chain'_cons] at hm'
      obtain ⟨⟨hpq1, hpq2⟩, hqt⟩ := hm'
      by_cases hx1 : x ≤ p.1
      · rw [interp_cons_left x p q t' hx1]
        exact interp_head_le (q :: t') p hm y
      · have hy1 : ¬ y ≤ p.1 := fun h => hx1 (le_trans hxy h)
        by_cases hx2 : x ≤ q.1
        · by_cases hy2 : y ≤ q.1
          · rw [interp_cons_mid x p q t' hx1 hx2,
              interp_cons_mid y p q t' hy1 hy2]
            have hD : 0 < q.1 - p.1 := by linarith
            have hs : 0 ≤ q.2 - p.2 := by linarith
            have hdiv : (x - p.1) / (q.1 - p.1) ≤ (y - p.1) / (q.1 - p.1) :=
              (div_le_div_iff_of_pos_right hD).mpr (by linarith)
            rw [mul_div_assoc, mul_div_assoc]
            nlinarith [mul_le_mul_of_nonneg_left hdiv hs]
          · rw [interp_cons_mid x p q t' hx1 hx2,
              interp_cons_right y p q t' hy1 hy2]
            have hD : 0 < q.1 - p.1 := by linarith
            have hs : 0 ≤ q.2 - p.2 := by linarith
            have hr1 : (x - p.1) / (q.1 - p.1) ≤ 1 :=
              (div_le_one hD).mpr (by linarith)
            have hseg : p.2 + (q.2 - p.2) * (x - p.1) / (q.1 - p.1) ≤ q.2 := by
              rw [mul_div_assoc]
              nlinarith [mul_le_mul_of_nonneg_left hr1 hs]
            exact le_trans hseg (interp_head_le t' q hqt y)
        · have hy2 : ¬ y ≤ q.1 := fun h => hx2 (le_trans hxy h)
          rw [interp_cons_right x p q t' hx1 hx2,
            interp_cons_right y p q t' hy1 hy2]
          exact ih hqt x y hxy


/-- C3: within every single `update()` call the processes run in the fixed
order evaporation, then emulsification, then dispersion, then the
land-stranding check, then the position updates.  The body factors through
`elementsBeforeStrand` (the age increment and the three weathering blocks in
that order) followed by `strandStep` and the `update_positions` calls; the
state on which the stranding predicate `land_binary_mask == 1` is evaluated
still carries the input (pre-advection) positions; and the final statuses
are exactly the post-strand statuses, so no position update precedes or
affects the stranding decision. -/
theorem c3_update_process_order (cfg : Config) (m : OilModel) (Δt : ℝ)
    (env : Env n) (d : Draws n) (e0 : Elements n) :
    (updateRun cfg m Δt env d e0 =
      ((if cfg.diffusion then
          update_positions Δt (windSigma cfg (envAfterDispersion cfg env) d).1
            (windSigma cfg (envAfterDispersion cfg env) d).2
            (update_positions Δt
              (currentSigma cfg (envAfterDispersion cfg env) d).1
              (currentSigma cfg (envAfterDispersion cfg env) d).2
              (elementsBeforeDiffusion cfg m Δt env d e0))
        else elementsBeforeDiffusion cfg m Δt env d e0),
        envAfterDispersion cfg env)) ∧
    (elementsBeforeStrand cfg m Δt env d e0).x = e0.x ∧
    (elementsBeforeStrand cfg m Δt env d e0).y = e0.y ∧
    (updateRun cfg m Δt env d e0).1.status =
      (strandStep (envAfterDispersion cfg env)
        (elementsBeforeStrand cfg m Δt env d e0)).status := by
  refine ⟨rfl, ?_, ?_, ?_⟩
  · unfold elementsBeforeStrand
    obtain ⟨disp, diff, evap, emul, wdf, cu, wu⟩ := cfg
    cases evap <;> cases emul <;> cases disp <;> simp
  · unfold elementsBeforeStrand
    obtain ⟨disp, diff, evap, emul, wdf, cu, wu⟩ := cfg
    cases evap <;> cases emul <;> cases disp <;> simp
  · show (updateRun cfg m Δt env d e0).1.status = _
    unfold updateRun elementsBeforeStrand
    obtain ⟨disp, diff, evap, emul, wdf, cu, wu⟩ := cfg
    cases diff <;> simp


/-! Characterizations of the fields of `updateRun`, shared by the claim
theorems below. -/

theorem updateRun_fst_status (cfg : Config) (m : OilModel) (Δt : ℝ)
    (env : Env n) (d : Draws n) (e0 : Elements n) :
    (updateRun cfg m Δt env d e0).1.status =
      (strandStep (envAfterDispersion cfg env)
        (elementsBeforeStrand cfg m Δt env d e0)).status := by
  unfold updateRun elementsBeforeStrand
  obtain ⟨disp, diff, evap, emul, wdf, cu, wu⟩ := cfg
  cases diff <;> simp

theorem beforeStrand_x (cfg : Config) (m : OilModel) (Δt : ℝ) (env : Env n)
    (d : Draws n) (e0 : Elements n) :
    (elementsBeforeStrand cfg m Δt env d e0).x = e0.x := by
  unfold elementsBeforeStrand
  obtain ⟨disp, diff, evap, emul, wdf, cu, wu⟩ := cfg
  cases evap <;> cases emul <;> cases disp <;> simp

theorem beforeStrand_y (cfg : Config) (m : OilModel) (Δt : ℝ) (env : Env n)
    (d : Draws n) (e0 : Elements n) :
    (elementsBeforeStrand cfg m Δt env d e0).y = e0.y := by
  unfold elementsBeforeStrand
  obtain ⟨disp, diff, evap, emul, wdf, cu, wu⟩ := cfg
  cases evap <;> cases emul <;> cases disp <;> simp

open Classical in
theorem beforeStrand_status (cfg : Config) (m : OilModel) (Δt : ℝ)
    (env : Env n) (d : Draws n) (e0 : Elements n) (i : Fin n) :
    (elementsBeforeStrand cfg m Δt env d e0).status i =
      if cfg.evaporation = true ∧ evapMask m Δt env d.evap_rand e0 i ∧
          e0.status i = Status.active then
        Status.evaporated
      else e0.status i := by
  unfold elementsBeforeStrand
  obtain ⟨disp, diff, evap, emul, wdf, cu, wu⟩ := cfg
  cases evap <;> cases emul <;> cases disp <;>
    simp [evapStep_status, deactivate_status]
  all_goals rfl

theorem beforeStrand_age_exposure (cfg : Config) (m : OilModel) (Δt : ℝ)
    (env : Env n) (d : Draws n) (e0 : Elements n) :
    (elementsBeforeStrand cfg m Δt env d e0).age_exposure_seconds =
      if cfg.evaporation then newAgeExposure m Δt env e0
      else e0.age_exposure_seconds := by
  unfold elementsBeforeStrand
  obtain ⟨disp, diff, evap, emul, wdf, cu, wu⟩ := cfg
  cases evap <;> cases emul <;> cases disp <;> simp
  all_goals rfl

theorem beforeStrand_fraction (cfg : Config) (m : OilModel) (Δt : ℝ)
    (env : Env n) (d : Draws n) (e0 : Elements n) :
    (elementsBeforeStrand cfg m Δt env d e0).fraction_evaporated =
      if cfg.evaporation then newFractionEvaporated m Δt env e0
      else e0.fraction_evaporated := by
  unfold elementsBeforeStrand
  obtain ⟨disp, diff, evap, emul, wdf, cu, wu⟩ := cfg
  cases evap <;> cases emul <;> cases disp <;> simp
  all_goals rfl

theorem updateRun_fst_age_exposure (cfg : Config) (m : OilModel) (Δt : ℝ)
    (env : Env n) (d : Draws n) (e0 : Elements n) :
    (updateRun cfg m Δt env d e0).1.age_exposure_seconds =
      if cfg.evaporation then newAgeExposure m Δt env e0
      else e0.age_exposure_seconds := by
  have h : (updateRun cfg m Δt env d e0).1.age_exposure_seconds =
      (elementsBeforeStrand cfg m Δt env d e0).age_exposure_seconds := by
    unfold updateRun elementsBeforeStrand
    obtain ⟨disp, diff, evap, emul, wdf, cu, wu⟩ := cfg
    cases diff <;> simp
  rw [h, beforeStrand_age_exposure]

theorem updateRun_fst_fraction (cfg : Config) (m : OilModel) (Δt : ℝ)
    (env : Env n) (d : Draws n) (e0 : Elements n) :
    (updateRun cfg m Δt env d e0).1.fraction_evaporated =
      if cfg.evaporation then newFractionEvaporated m Δt env e0
      else e0.fraction_evaporated := by
  have h : (updateRun cfg m Δt env d e0).1.fraction_evaporated =
      (elementsBeforeStrand cfg m Δt env d e0).fraction_evaporated := by
    unfold updateRun elementsBeforeStrand
    obtain ⟨disp, diff, evap, emul, wdf, cu, wu⟩ := cfg
    cases diff <;> simp
  rw [h, beforeStrand_fraction]

theorem updateRun_fst_age_emulsion (cfg : Config) (m : OilModel) (Δt : ℝ)
    (env : Env n) (d : Draws n) (e0 : Elements n) :
    (updateRun cfg m Δt env d e0).1.age_emulsion_seconds =
      if cfg.emulsification then
        fun i => e0.age_emulsion_seconds i + Urel m env i * Δt
      else e0.age_emulsion_seconds := by
  unfold updateRun
  obtain ⟨disp, diff, evap, emul, wdf, cu, wu⟩ := cfg
  cases evap <;> cases emul <;> cases disp <;> cases diff <;> simp
  all_goals rfl

theorem updateRun_fst_water (cfg : Config) (m : OilModel) (Δt : ℝ)
    (env : Env n) (d : Draws n) (e0 : Elements n) :
    (updateRun cfg m Δt env d e0).1.water_content =
      if cfg.emulsification then
        fun i =>
          interp (e0.age_emulsion_seconds i + Urel m env i * Δt)
            (m.tref.zip m.wmax)
      else e0.water_content := by
  unfold updateRun
  obtain ⟨disp, diff, evap, emul, wdf, cu, wu⟩ := cfg
  cases evap <;> cases emul <;> cases disp <;> cases diff <;> simp
  all_goals rfl

theorem updateRun_fst_mass_oil (cfg : Config) (m : OilModel) (Δt : ℝ)
    (env : Env n) (d : Draws n) (e0 : Elements n) :
    (updateRun cfg m Δt env d e0).1.mass_oil =
      if cfg.dispersion then
        fun i => e0.mass_oil i - oil_mass_loss Δt env e0 i
      else e0.mass_oil := by
  unfold updateRun
  obtain ⟨disp, diff, evap, emul, wdf, cu, wu⟩ := cfg
  cases evap <;> cases emul <;> cases disp <;> cases diff <;> simp
  all_goals rfl

theorem updateRun_snd (cfg : Config) (m : OilModel) (Δt : ℝ) (env : Env n)
    (d : Draws n) (e0 : Elements n) :
    (updateRun cfg m Δt env d e0).2 = envAfterDispersion cfg env := rfl


theorem update_eq_some_of (cfg : Config) (m : OilModel) (Δt : ℝ) (env : Env n)
    (d : Draws n) (e : Elements n)
    (h : ¬ (cfg.emulsification = true ∧ cfg.evaporation = false)) :
    update cfg m Δt env d e = some (updateRun cfg m Δt env d e) := if_neg h

/-- C4: with evaporation enabled, a particle that is not at the surface
(`depth != 0`) keeps its exposure age unchanged through `update()`, its
evaporation probability is forced to 0 by the `~at_surface` overwrite, and —
the uniform draw of `np.random.rand` being nonnegative — it is never
deactivated with reason `evaporated` in that timestep; only particles with
`depth == 0` receive the exposure increment
`(reference_thickness / 2 mm) * Urel * Δt`. -/
theorem c4_nonsurface_no_evaporation (cfg : Config) (m : OilModel) (Δt : ℝ)
    (env : Env n) (d : Draws n) (e : Elements n) (out : Elements n × Env n)
    (i : Fin n)
    (hev : cfg.evaporation = true)
    (hrand : 0 ≤ d.evap_rand i)
    (hup : update cfg m Δt env d e = some out) :
    (e.depth i ≠ 0 →
      out.1.age_exposure_seconds i = e.age_exposure_seconds i ∧
      evaporation_probability m Δt env e i = some 0 ∧
      (e.status i ≠ Status.evaporated →
        out.1.status i ≠ Status.evaporated)) ∧
    (e.depth i = 0 →
      out.1.age_exposure_seconds i =
        e.age_exposure_seconds i +
          m.reference_thickness / 2 * Urel m env i * Δt) := by
  have hout : out = updateRun cfg m Δt env d e := by
    unfold update at hup
    rw [if_neg (by simp [hev])] at hup
    exact (Option.some_inj.mp hup).symm
  subst hout
  constructor
  · intro hd
    have hprob : evaporation_probability m Δt env e i = some 0 := by
      unfold evaporation_probability
      rw [if_neg hd]
    have hmask : ¬ evapMask m Δt env d.evap_rand e i := by
      unfold evapMask
      rw [hprob]
      simp only [Option.elim_some]
      exact not_lt.mpr hrand
    refine ⟨?_, hprob, ?_⟩
    · rw [updateRun_fst_age_exposure, hev, if_pos rfl]
      unfold newAgeExposure
      rw [if_neg hd]
    · intro hst
      rw [updateRun_fst_status, strandStep_status, beforeStrand_status,
        envAfterDispersion_land]
      simp only [hmask, false_and, and_false, if_false]
      split_ifs with h1
      · simp
      · exact hst
  · intro hd
    rw [updateRun_fst_age_exposure, hev, if_pos rfl]
    unfold newAgeExposure delta_exposure_seconds
    rw [if_pos hd]

/-- Witness for C4 at a concrete input: one particle at depth 10 m, wind off,
evaporation enabled, zero uniform draw. -/
theorem c4_nonsurface_no_evaporation_witness :
    (exElemsDeep.depth 0 ≠ 0 →
      (updateRun cfgEvapOnly exModel 3600 exEnvCalm exDraws
        exElemsDeep).1.age_exposure_seconds 0 =
        exElemsDeep.age_exposure_seconds 0 ∧
      evaporation_probability exModel 3600 exEnvCalm exElemsDeep 0 = some 0 ∧
      (exElemsDeep.status 0 ≠ Status.evaporated →
        (updateRun cfgEvapOnly exModel 3600 exEnvCalm exDraws
          exElemsDeep).1.status 0 ≠ Status.evaporated)) ∧
    (exElemsDeep.depth 0 = 0 →
      (updateRun cfgEvapOnly exModel 3600 exEnvCalm exDraws
        exElemsDeep).1.age_exposure_seconds 0 =
        exElemsDeep.age_exposure_seconds 0 +
          exModel.reference_thickness / 2 * Urel exModel exEnvCalm 0 * 3600) :=
  c4_nonsurface_no_evaporation cfgEvapOnly exModel 3600 exEnvCalm exDraws
    exElemsDeep
    (updateRun cfgEvapOnly exModel 3600 exEnvCalm exDraws exElemsDeep) 0
    rfl (le_refl 0)
    (update_eq_some_of cfgEvapOnly exModel 3600 exEnvCalm exDraws exElemsDeep
      (by simp [cfgEvapOnly]))


/-- C1 (failing input): openoil.py lines 157-163 contain no special case for
`fraction_evaporated == 1`.  For a surface particle whose fraction is exactly
1 the division `(new - old) / (1 - old)` is evaluated with denominator
exactly 0, producing the undefined float value NaN (modelled `none`) instead
of the special-cased probability `some 0` that the spec's guard requires.
The particle is nevertheless not deactivated by the draw, because the IEEE
comparison `NaN > rand` is false. -/
theorem c1_no_division_guard_at_full_evaporation :
    evaporation_probability exModelFull 3600 exEnvCalm exElemsFrac1 0 =
      none ∧
    evaporation_probability exModelFull 3600 exEnvCalm exElemsFrac1 0 ≠
      some 0 ∧
    (update cfgEvapOnly exModelFull 3600 exEnvCalm exDraws
        exElemsFrac1).map (fun out => out.1.status 0) =
      some Status.active := by
  have hnone : evaporation_probability exModelFull 3600 exEnvCalm
      exElemsFrac1 0 = none := by
    norm_num [evaporation_probability, exElemsFrac1, exElems]
  have hmask : ¬ evapMask exModelFull 3600 exEnvCalm exDraws.evap_rand
      exElemsFrac1 0 := by
    unfold evapMask
    rw [hnone]
    simp
  refine ⟨hnone, by rw [hnone]; simp, ?_⟩
  rw [update_eq_some_of _ _ _ _ _ _ (by simp [cfgEvapOnly])]
  simp only [Option.map_some']
  rw [updateRun_fst_status, strandStep_status, beforeStrand_status,
    envAfterDispersion_land]
  simp only [hmask, false_and, and_false, if_false]
  norm_num [exEnvCalm, exElemsFrac1, exElems]


/-- C2 (failing input): emulsification reads the local `Urel` that only the
evaporation branch binds (openoil.py lines 135, 169-170).  With
emulsification enabled and evaporation disabled, `update()` raises
`UnboundLocalError` (modelled `none`) and no field is updated at all; in
every configuration where the call completes with both branches enabled, it
does increment `age_emulsion_seconds` by `Urel * Δt` for every particle
(surface or not) and sets `water_content` from the clamped `wmax` table,
reusing the per-timestep `Urel`. -/
theorem c2_urel_unbound_without_evaporation :
    update cfgEmulNoEvap exModel 3600 exEnvLand exDraws exElems = none ∧
    (∀ (k : ℕ) (cfg : Config) (m : OilModel) (Δt : ℝ) (env : Env k)
      (d : Draws k) (e : Elements k) (out : Elements k × Env k) (i : Fin k),
      cfg.emulsification = true → cfg.evaporation = true →
      update cfg m Δt env d e = some out →
      out.1.age_emulsion_seconds i =
        e.age_emulsion_seconds i + Urel m env i * Δt ∧
      out.1.water_content i =
        interp (e.age_emulsion_seconds i + Urel m env i * Δt)
          (m.tref.zip m.wmax)) := by
  constructor
  · simp [update, cfgEmulNoEvap]
  · intro k cfg m Δt env d e out i hem hev hup
    have hout : out = updateRun cfg m Δt env d e := by
      unfold update at hup
      rw [if_neg (by simp [hev])] at hup
      exact (Option.some_inj.mp hup).symm
    subst hout
    constructor
    · rw [updateRun_fst_age_emulsion, hem, if_pos rfl]
    · rw [updateRun_fst_water, hem, if_pos rfl]

/-- Witness for the universally quantified part of the C2 theorem, at a
concrete input with both evaporation and emulsification enabled. -/
theorem c2_urel_unbound_without_evaporation_witness :
    (updateRun cfgEvapEmul exModel 3600 exEnvLand exDraws
        exElems).1.age_emulsion_seconds 0 =
      exElems.age_emulsion_seconds 0 + Urel exModel exEnvLand 0 * 3600 ∧
    (updateRun cfgEvapEmul exModel 3600 exEnvLand exDraws
        exElems).1.water_content 0 =
      interp (exElems.age_emulsion_seconds 0 + Urel exModel exEnvLand 0 * 3600)
        (exModel.tref.zip exModel.wmax) :=
  c2_urel_unbound_without_evaporation.2 1 cfgEvapEmul exModel 3600 exEnvLand
    exDraws exElems
    (updateRun cfgEvapEmul exModel 3600 exEnvLand exDraws exElems) 0 rfl rfl
    (update_eq_some_of cfgEvapEmul exModel 3600 exEnvLand exDraws exElems
      (by simp [cfgEvapEmul]))


/-- C6 (counterexample): a particle on land (`land_binary_mask = 1`) does not
always end the timestep with status `stranded`.  With emulsification on and
evaporation off, `update()` raises before reaching the stranding check; and
with evaporation on, the evaporation draw can deactivate the particle with
reason `evaporated` first, after which the stranding check no longer applies
(first match wins).  Both failures are exhibited on a concrete active
particle standing on land. -/
theorem c6_not_always_stranded :
    update cfgEmulNoEvap exModel 3600 exEnvLand exDraws exElems = none ∧
    (update cfgEvapOnly exModel 3600 exEnvLand exDraws exElems).map
      (fun out => out.1.status 0) = some Status.evaporated ∧
    exEnvLand.land_binary_mask 0 = 1 ∧
    exElems.status 0 = Status.active := by
  refine ⟨by simp [update, cfgEmulNoEvap], ?_, rfl, rfl⟩
  have hws : windspeed exEnvLand 0 = 1 := by
    show Real.sqrt ((1 : ℝ) ^ 2 + 0 ^ 2) = 1
    rw [show ((1 : ℝ) ^ 2 + 0 ^ 2) = 1 by norm_num, Real.sqrt_one]
  have hage : newAgeExposure exModel 3600 exEnvLand exElems 0 = 3600 := by
    unfold newAgeExposure delta_exposure_seconds Urel
    rw [if_pos (show exElems.depth 0 = 0 from rfl), hws]
    show (0 : ℝ) + 2 / 2 * (1 / 1) * 3600 = 3600
    norm_num
  have hzip : exModel.tref.zip exModel.fref =
      [((0 : ℝ), (0 : ℝ)), ((3600 : ℝ), (1 / 2 : ℝ))] := rfl
  have hfrac : newFractionEvaporated exModel 3600 exEnvLand exElems 0 =
      1 / 2 := by
    unfold newFractionEvaporated
    rw [hage, hzip, interp_cons_mid 3600 (0, 0) (3600, 1 / 2) []
      (by norm_num) (by norm_num)]
    norm_num
  have hprob : evaporation_probability exModel 3600 exEnvLand exElems 0 =
      some (1 / 2) := by
    unfold evaporation_probability
    rw [if_pos (show exElems.depth 0 = 0 from rfl),
      if_neg (show ¬ (1 - exElems.fraction_evaporated 0 = 0) by
        norm_num [exElems]), hfrac]
    norm_num [exElems]
  have hmask : evapMask exModel 3600 exEnvLand exDraws.evap_rand exElems 0 := by
    unfold evapMask
    rw [hprob]
    show (0 : ℝ) < 1 / 2
    norm_num
  rw [update_eq_some_of _ _ _ _ _ _ (by simp [cfgEvapOnly])]
  simp only [Option.map_some']
  rw [updateRun_fst_status, strandStep_status, beforeStrand_status,
    envAfterDispersion_land]
  have hcond : cfgEvapOnly.evaporation = true ∧
      evapMask exModel 3600 exEnvLand exDraws.evap_rand exElems 0 ∧
      exElems.status 0 = Status.active := ⟨rfl, hmask, rfl⟩
  rw [if_pos hcond, if_neg (by simp)]

open Classical in
/-- C6 (amended): a particle standing on land ends the timestep stranded
provided `update()` completes (the configuration is not
emulsification-without-evaporation) and the evaporation draw did not already
deactivate it; in every completing configuration its final status is either
`stranded` or `evaporated`. -/
theorem c6_stranded_unless_evaporated (cfg : Config) (m : OilModel) (Δt : ℝ)
    (env : Env n) (d : Draws n) (e : Elements n) (i : Fin n)
    (hcfg : ¬ (cfg.emulsification = true ∧ cfg.evaporation = false))
    (hactive : e.status i = Status.active)
    (hland : env.land_binary_mask i = 1) :
    ∃ out, update cfg m Δt env d e = some out ∧
      (out.1.status i = Status.stranded ∨
        out.1.status i = Status.evaporated) ∧
      (¬ (cfg.evaporation = true ∧ evapMask m Δt env d.evap_rand e i) →
        out.1.status i = Status.stranded) := by
  refine ⟨updateRun cfg m Δt env d e, update_eq_some_of _ _ _ _ _ _ hcfg, ?_⟩
  by_cases hev : cfg.evaporation = true ∧ evapMask m Δt env d.evap_rand e i
  · have h1 : (updateRun cfg m Δt env d e).1.status i = Status.evaporated := by
      rw [updateRun_fst_status, strandStep_status, beforeStrand_status,
        envAfterDispersion_land]
      simp [hev.1, hev.2, hactive]
    exact ⟨Or.inr h1, fun h => absurd hev h⟩
  · have h1 : (updateRun cfg m Δt env d e).1.status i = Status.stranded := by
      rw [updateRun_fst_status, strandStep_status, beforeStrand_status,
        envAfterDispersion_land]
      have hno : ¬ (cfg.evaporation = true ∧
          evapMask m Δt env d.evap_rand e i ∧
          e.status i = Status.active) := by tauto
      rw [if_neg hno, hactive, if_pos ⟨hland, rfl⟩]
    exact ⟨Or.inl h1, fun _ => h1⟩

/-- Witness for the amended C6 theorem: dispersion-only configuration, one
active particle on land; it ends the step stranded. -/
theorem c6_stranded_unless_evaporated_witness :
    ∃ out, update cfgDispOnly exModel 3600 exEnvLand exDraws exElems =
        some out ∧
      (out.1.status 0 = Status.stranded ∨
        out.1.status 0 = Status.evaporated) ∧
      (¬ (cfgDispOnly.evaporation = true ∧
          evapMask exModel 3600 exEnvLand exDraws.evap_rand exElems 0) →
        out.1.status 0 = Status.stranded) :=
  c6_stranded_unless_evaporated cfgDispOnly exModel 3600 exEnvLand exDraws
    exElems 0 (by simp [cfgDispOnly]) rfl rfl


theorem windspeed_exEnvLand : windspeed exEnvLand 0 = 1 := by
  show Real.sqrt ((1 : ℝ) ^ 2 + 0 ^ 2) = 1
  rw [show ((1 : ℝ) ^ 2 + 0 ^ 2) = 1 by norm_num, Real.sqrt_one]

theorem eq_updateRun_of_update_eq_some (cfg : Config) (m : OilModel) (Δt : ℝ)
    (env : Env n) (d : Draws n) (e : Elements n) (out : Elements n × Env n)
    (hup : update cfg m Δt env d e = some out) :
    out = updateRun cfg m Δt env d e := by
  unfold update at hup
  split_ifs at hup
  exact (Option.some_inj.mp hup).symm

/-- C9: the dispersion block mutates the environment snapshot itself, not
only particle fields.  After a completing `update()` with dispersion
enabled, the environment object's `sea_surface_wave_significant_height`
array holds at every index the in-place substituted value: `0.0246 *
windspeed**2` wherever the provider supplied 0, the provider's value
elsewhere. -/
theorem c9_dispersion_overwrites_wave_height (cfg : Config) (m : OilModel)
    (Δt : ℝ) (env : Env n) (d : Draws n) (e : Elements n)
    (out : Elements n × Env n)
    (hdisp : cfg.dispersion = true)
    (hup : update cfg m Δt env d e = some out) (i : Fin n) :
    out.2.sea_surface_wave_significant_height i =
      (if env.sea_surface_wave_significant_height i = 0 then
        0.0246 * windspeed env i ^ 2
      else env.sea_surface_wave_significant_height i) := by
  rw [eq_updateRun_of_update_eq_some cfg m Δt env d e out hup, updateRun_snd]
  unfold envAfterDispersion
  rw [hdisp, if_pos rfl]
  rfl

/-- Witness for C9: with the provider's wave height 0 and wind (1, 0), the
environment object returned by `update()` carries 0.0246 — no longer the
supplied value. -/
theorem c9_dispersion_overwrites_wave_height_witness :
    (updateRun cfgDispOnly exModel 3600 exEnvLand exDraws
        exElems).2.sea_surface_wave_significant_height 0 =
      (if exEnvLand.sea_surface_wave_significant_height 0 = 0 then
        0.0246 * windspeed exEnvLand 0 ^ 2
      else exEnvLand.sea_surface_wave_significant_height 0) ∧
    (updateRun cfgDispOnly exModel 3600 exEnvLand exDraws
        exElems).2.sea_surface_wave_significant_height 0 ≠
      exEnvLand.sea_surface_wave_significant_height 0 :=
  ⟨c9_dispersion_overwrites_wave_height cfgDispOnly exModel 3600 exEnvLand
      exDraws exElems
      (updateRun cfgDispOnly exModel 3600 exEnvLand exDraws exElems) rfl
      (update_eq_some_of _ _ _ _ _ _ (by simp [cfgDispOnly])) 0,
   by
    show waveHeightUsed exEnvLand 0 ≠
      exEnvLand.sea_surface_wave_significant_height 0
    unfold waveHeightUsed
    rw [if_pos (show exEnvLand.sea_surface_wave_significant_height 0 = 0 from
      rfl), windspeed_exEnvLand]
    show (0.0246 : ℝ) * 1 ^ 2 ≠ 0
    norm_num⟩

/-- C8: with diffusion enabled both stochastic displacement calls are always
performed, in order, after the current and wind-drag calls.  When
`current_uncertainty ≤ 0` the current-uncertainty call applies an
exactly-zero displacement (the call still occurs and is total for any
particle count, including zero); the wind-uncertainty call applies Gaussian
noise of standard deviation `wind_uncertainty * wind_drift_factor` exactly
when both `wind_drift_factor > 0` and `wind_uncertainty > 0`, and otherwise
an exactly-zero displacement. -/
theorem c8_diffusion_always_two_calls (cfg : Config) (m : OilModel) (Δt : ℝ)
    (env : Env n) (d : Draws n) (e0 : Elements n)
    (hdiff : cfg.diffusion = true) :
    updateRun cfg m Δt env d e0 =
      (update_positions Δt (windSigma cfg (envAfterDispersion cfg env) d).1
        (windSigma cfg (envAfterDispersion cfg env) d).2
        (update_positions Δt
          (currentSigma cfg (envAfterDispersion cfg env) d).1
          (currentSigma cfg (envAfterDispersion cfg env) d).2
          (elementsBeforeDiffusion cfg m Δt env d e0)),
       envAfterDispersion cfg env) ∧
    (∀ env2 : Env n,
      (cfg.current_uncertainty ≤ 0 →
        currentSigma cfg env2 d = (fun _ => 0, fun _ => 0) ∧
        ∀ e : Elements n,
          update_positions Δt (currentSigma cfg env2 d).1
            (currentSigma cfg env2 d).2 e = e) ∧
      (0 < cfg.current_uncertainty →
        currentSigma cfg env2 d =
          (fun i => cfg.current_uncertainty * d.current_noise_u i,
           fun i => cfg.current_uncertainty * d.current_noise_v i)) ∧
      (0 < cfg.wind_drift_factor ∧ 0 < cfg.wind_uncertainty →
        windSigma cfg env2 d =
          (fun i =>
            cfg.wind_uncertainty * cfg.wind_drift_factor * d.wind_noise_u i,
           fun i =>
            cfg.wind_uncertainty * cfg.wind_drift_factor *
              d.wind_noise_v i)) ∧
      (¬ (0 < cfg.wind_drift_factor ∧ 0 < cfg.wind_uncertainty) →
        windSigma cfg env2 d = (fun _ => 0, fun _ => 0) ∧
        ∀ e : Elements n,
          update_positions Δt (windSigma cfg env2 d).1
            (windSigma cfg env2 d).2 e = e)) := by
  constructor
  · unfold updateRun elementsBeforeDiffusion elementsBeforeStrand
    obtain ⟨disp, diff, evap, emul, wdf, cu, wu⟩ := cfg
    subst hdiff
    rfl
  · intro env2
    refine ⟨?_, ?_, ?_, ?_⟩
    · intro hcu
      have hz : currentSigma cfg env2 d =
          ((fun _ => 0 : Fin n → ℝ), (fun _ => 0 : Fin n → ℝ)) := by
        unfold currentSigma
        rw [if_neg (not_lt.mpr hcu)]
        exact Prod.ext (funext fun i => zero_mul _) (funext fun i => zero_mul _)
      refine ⟨hz, fun e => ?_⟩
      rw [hz]
      unfold update_positions
      simp
    · intro hcu
      unfold currentSigma
      rw [if_pos hcu]
    · intro hpos
      unfold windSigma
      rw [if_pos hpos]
    · intro hneg
      have hz : windSigma cfg env2 d =
          ((fun _ => 0 : Fin n → ℝ), (fun _ => 0 : Fin n → ℝ)) := by
        unfold windSigma
        rw [if_neg hneg]
        exact Prod.ext (funext fun i => zero_mul _) (funext fun i => zero_mul _)
      refine ⟨hz, fun e => ?_⟩
      rw [hz]
      unfold update_positions
      simp

/-- Witness for C8: diffusion-only configuration with zero current
uncertainty and zero wind drift factor on one particle. -/
theorem c8_diffusion_always_two_calls_witness :
    updateRun cfgDiffOnly exModel 3600 exEnvCalm exDraws exElems =
      (update_positions 3600
        (windSigma cfgDiffOnly (envAfterDispersion cfgDiffOnly exEnvCalm)
          exDraws).1
        (windSigma cfgDiffOnly (envAfterDispersion cfgDiffOnly exEnvCalm)
          exDraws).2
        (update_positions 3600
          (currentSigma cfgDiffOnly (envAfterDispersion cfgDiffOnly exEnvCalm)
            exDraws).1
          (currentSigma cfgDiffOnly (envAfterDispersion cfgDiffOnly exEnvCalm)
            exDraws).2
          (elementsBeforeDiffusion cfgDiffOnly exModel 3600 exEnvCalm exDraws
            exElems)),
       envAfterDispersion cfgDiffOnly exEnvCalm) ∧
    (∀ env2 : Env 1,
      (cfgDiffOnly.current_uncertainty ≤ 0 →
        currentSigma cfgDiffOnly env2 exDraws = (fun _ => 0, fun _ => 0) ∧
        ∀ e : Elements 1,
          update_positions 3600 (currentSigma cfgDiffOnly env2 exDraws).1
            (currentSigma cfgDiffOnly env2 exDraws).2 e = e) ∧
      (0 < cfgDiffOnly.current_uncertainty →
        currentSigma cfgDiffOnly env2 exDraws =
          (fun i => cfgDiffOnly.current_uncertainty * exDraws.current_noise_u i,
           fun i =>
            cfgDiffOnly.current_uncertainty * exDraws.current_noise_v i)) ∧
      (0 < cfgDiffOnly.wind_drift_factor ∧ 0 < cfgDiffOnly.wind_uncertainty →
        windSigma cfgDiffOnly env2 exDraws =
          (fun i =>
            cfgDiffOnly.wind_uncertainty * cfgDiffOnly.wind_drift_factor *
              exDraws.wind_noise_u i,
           fun i =>
            cfgDiffOnly.wind_uncertainty * cfgDiffOnly.wind_drift_factor *
              exDraws.wind_noise_v i)) ∧
      (¬ (0 < cfgDiffOnly.wind_drift_factor ∧
          0 < cfgDiffOnly.wind_uncertainty) →
        windSigma cfgDiffOnly env2 exDraws = (fun _ => 0, fun _ => 0) ∧
        ∀ e : Elements 1,
          update_positions 3600 (windSigma cfgDiffOnly env2 exDraws).1
            (windSigma cfgDiffOnly env2 exDraws).2 e = e)) :=
  c8_diffusion_always_two_calls cfgDiffOnly exModel 3600 exEnvCalm exDraws
    exElems rfl


/-- C5: with dispersion enabled, `update()` decreases every particle's
`mass_oil` by exactly `q_disp * Δt * density` with `q_disp = C_Roy * c_disp
* v_entrain / density`, and no lower bound is applied.  In the spec section
8 scenario (mass 1000 kg, viscosity 0.5, density 800, wave height 2 m, wind
(5, 0) m/s, Δt 3600 s) `q_disp > 0` and `mass_oil` strictly decreases, and
the same dispersion step drives a particle with no remaining mass
negative. -/
theorem c5_dispersion_mass_decrease (cfg : Config) (m : OilModel) (Δt : ℝ)
    (env : Env n) (d : Draws n) (e : Elements n) (out : Elements n × Env n)
    (hdisp : cfg.dispersion = true)
    (hup : update cfg m Δt env d e = some out) (i : Fin n) :
    (out.1.mass_oil i =
      e.mass_oil i - q_disp env e i * Δt * e.density i) ∧
    0 < q_disp exEnvWave exElems 0 ∧
    (updateRun cfgDispOnly exModel 3600 exEnvWave exDraws
      exElems).1.mass_oil 0 < 1000 ∧
    (updateRun cfgDispOnly exModel 3600 exEnvWave exDraws
      exElemsZeroMass).1.mass_oil 0 < 0 := by
  have hwave : waveHeightUsed exEnvWave 0 = 2 := by
    unfold waveHeightUsed
    rw [if_neg (show ¬ exEnvWave.sea_surface_wave_significant_height 0 = 0 by
      norm_num [exEnvWave])]
    rfl
  have hdiss : 0 < dissipation_wave_energy exEnvWave 0 := by
    unfold dissipation_wave_energy
    rw [hwave]
    norm_num
  have hcd : 0 < c_disp exEnvWave 0 := by
    unfold c_disp
    exact mul_pos (Real.rpow_pos_of_pos hdiss (0.57 : ℝ)) (by norm_num)
  have hcroy : 0 < C_Roy exElems 0 := by
    unfold C_Roy
    exact mul_pos (by norm_num) (Real.exp_pos _)
  have hq : 0 < q_disp exEnvWave exElems 0 := by
    unfold q_disp
    exact div_pos (mul_pos (mul_pos hcroy hcd) (by norm_num))
      (by norm_num [exElems] : (0 : ℝ) < exElems.density 0)
  have hloss : 0 < oil_mass_loss 3600 exEnvWave exElems 0 := by
    unfold oil_mass_loss
    exact mul_pos (mul_pos hq (by norm_num)) (by norm_num [exElems])
  refine ⟨?_, hq, ?_, ?_⟩
  · rw [eq_updateRun_of_update_eq_some cfg m Δt env d e out hup,
      updateRun_fst_mass_oil, hdisp, if_pos rfl]
    rfl
  · rw [updateRun_fst_mass_oil,
      show cfgDispOnly.dispersion = true from rfl, if_pos rfl]
    show exElems.mass_oil 0 - oil_mass_loss 3600 exEnvWave exElems 0 < 1000
    rw [show exElems.mass_oil 0 = (1000 : ℝ) from rfl]
    linarith
  · rw [updateRun_fst_mass_oil,
      show cfgDispOnly.dispersion = true from rfl, if_pos rfl]
    show exElemsZeroMass.mass_oil 0 -
      oil_mass_loss 3600 exEnvWave exElemsZeroMass 0 < 0
    have hloss0 : 0 < oil_mass_loss 3600 exEnvWave exElemsZeroMass 0 := hloss
    rw [show exElemsZeroMass.mass_oil 0 = (0 : ℝ) from rfl]
    linarith

/-- Witness for C5 at the spec section 8 scenario itself. -/
theorem c5_dispersion_mass_decrease_witness :
    ((updateRun cfgDispOnly exModel 3600 exEnvWave exDraws
        exElems).1.mass_oil 0 =
      exElems.mass_oil 0 -
        q_disp exEnvWave exElems 0 * 3600 * exElems.density 0) ∧
    0 < q_disp exEnvWave exElems 0 ∧
    (updateRun cfgDispOnly exModel 3600 exEnvWave exDraws
      exElems).1.mass_oil 0 < 1000 ∧
    (updateRun cfgDispOnly exModel 3600 exEnvWave exDraws
      exElemsZeroMass).1.mass_oil 0 < 0 :=
  c5_dispersion_mass_decrease cfgDispOnly exModel 3600 exEnvWave exDraws
    exElems (updateRun cfgDispOnly exModel 3600 exEnvWave exDraws exElems) rfl
    (update_eq_some_of _ _ _ _ _ _ (by simp [cfgDispOnly])) 0


/-- One completing `update()` call preserves the coherence invariant and
never decreases any particle's evaporated fraction, under the monotone-table
hypotheses and nonnegative reference constants. -/
theorem update_step_coherent (cfg : Config) (m : OilModel) (Δt : ℝ)
    (env : Env n) (d : Draws n) (e : Elements n) (out : Elements n × Env n)
    (hchain : MonoTable (m.tref.zip m.fref))
    (hvals : ∀ p ∈ m.tref.zip m.fref, p.2 ∈ Set.Icc (0 : ℝ) 1)
    (hrw : 0 < m.reference_wind) (hrt : 0 ≤ m.reference_thickness)
    (hdt : 0 ≤ Δt)
    (hco : Coherent m e)
    (hup : update cfg m Δt env d e = some out) :
    Coherent m out.1 ∧
    ∀ i, e.fraction_evaporated i ≤ out.1.fraction_evaporated i := by
  have hout := eq_updateRun_of_update_eq_some cfg m Δt env d e out hup
  subst hout
  have hage : ∀ i, e.age_exposure_seconds i ≤ newAgeExposure m Δt env e i := by
    intro i
    unfold newAgeExposure
    split_ifs
    · have hU : 0 ≤ Urel m env i := div_nonneg (Real.sqrt_nonneg _) hrw.le
      have hd : 0 ≤ delta_exposure_seconds m Δt env i := by
        unfold delta_exposure_seconds
        exact mul_nonneg (mul_nonneg (div_nonneg hrt (by norm_num)) hU) hdt
      linarith
    · exact le_refl _
  by_cases hev : cfg.evaporation = true
  · constructor
    · intro i
      rw [updateRun_fst_fraction, hev, if_pos rfl,
        updateRun_fst_age_exposure, hev, if_pos rfl]
      exact ⟨interp_mem_Icc _ hchain hvals _, le_refl _⟩
    · intro i
      rw [updateRun_fst_fraction, hev, if_pos rfl]
      calc e.fraction_evaporated i
          ≤ interp (e.age_exposure_seconds i) (m.tref.zip m.fref) :=
            (hco i).2
        _ ≤ interp (newAgeExposure m Δt env e i) (m.tref.zip m.fref) :=
            interp_mono _ hchain _ _ (hage i)
        _ = newFractionEvaporated m Δt env e i := rfl
  · have hev' : cfg.evaporation = false := by
      cases h : cfg.evaporation
      · rfl
      · exact absurd h hev
    constructor
    · intro i
      rw [updateRun_fst_fraction, hev', updateRun_fst_age_exposure, hev']
      simp only [Bool.false_eq_true, if_false]
      exact hco i
    · intro i
      rw [updateRun_fst_fraction, hev']
      simp only [Bool.false_eq_true, if_false]
      exact le_refl _

/-- C7: along any trajectory of completing `update()` calls,
`fraction_evaporated` is non-decreasing and stays in `[0, 1]` for every
particle, given the reference-curve preconditions (strictly increasing
`tref`, non-decreasing `fref` with values in `[0, 1]`, positive reference
wind, nonnegative reference thickness, nonnegative timesteps) and freshly
seeded particles (fraction 0). -/
theorem c7_fraction_monotone_bounded (cfgs : ℕ → Config) (m : OilModel)
    (Δts : ℕ → ℝ) (envs : ℕ → Env n) (ds : ℕ → Draws n) (e0 : Elements n)
    (hchain : MonoTable (m.tref.zip m.fref))
    (hvals : ∀ p ∈ m.tref.zip m.fref, p.2 ∈ Set.Icc (0 : ℝ) 1)
    (hrw : 0 < m.reference_wind) (hrt : 0 ≤ m.reference_thickness)
    (hdt : ∀ k, 0 ≤ Δts k)
    (hinit : ∀ i, e0.fraction_evaporated i = 0) :
    ∀ j k : ℕ, j ≤ k →
      ∀ ej ek, trajectory cfgs m Δts envs ds e0 j = some ej →
        trajectory cfgs m Δts envs ds e0 k = some ek →
        ∀ i, ej.fraction_evaporated i ≤ ek.fraction_evaporated i ∧
          ek.fraction_evaporated i ∈ Set.Icc (0 : ℝ) 1 := by
  have hco0 : Coherent m e0 := by
    intro i
    rw [hinit i]
    exact ⟨by norm_num, (interp_mem_Icc _ hchain hvals _).1⟩
  have key : ∀ k ek, trajectory cfgs m Δts envs ds e0 k = some ek →
      Coherent m ek := by
    intro k
    induction k with
    | zero =>
      intro ek h
      simp only [trajectory] at h
      obtain rfl := Option.some_inj.mp h
      exact hco0
    | succ k ih =>
      intro ek h
      simp only [trajectory] at h
      obtain ⟨emid, hmid, h2⟩ := Option.bind_eq_some.mp h
      obtain ⟨out, hout, rfl⟩ := Option.map_eq_some'.mp h2
      exact (update_step_coherent (cfgs k) m (Δts k) (envs k) (ds k) emid out
        hchain hvals hrw hrt (hdt k) (ih emid hmid) hout).1
  have mono : ∀ j k, j ≤ k → ∀ ej ek,
      trajectory cfgs m Δts envs ds e0 j = some ej →
      trajectory cfgs m Δts envs ds e0 k = some ek →
      ∀ i, ej.fraction_evaporated i ≤ ek.fraction_evaporated i := by
    intro j k
    induction k with
    | zero =>
      intro hjk ej ek hj hk i
      obtain rfl : j = 0 := Nat.le_zero.mp hjk
      rw [hj] at hk
      obtain rfl := Option.some_inj.mp hk
      exact le_refl _
    | succ k ih =>
      intro hjk ej ek hj hk i
      by_cases hjk' : j ≤ k
      · simp only [trajectory] at hk
        obtain ⟨emid, hmid, h2⟩ := Option.bind_eq_some.mp hk
        obtain ⟨out, hout, rfl⟩ := Option.map_eq_some'.mp h2
        exact le_trans (ih hjk' ej emid hj hmid i)
          ((update_step_coherent (cfgs k) m (Δts k) (envs k) (ds k) emid out
            hchain hvals hrw hrt (hdt k) (key k emid hmid) hout).2 i)
      · obtain rfl : j = k + 1 := by omega
        rw [hj] at hk
        obtain rfl := Option.some_inj.mp hk
        exact le_refl _
  intro j k hjk ej ek hj hk i
  exact ⟨mono j k hjk ej ek hj hk i, (key k ek hk i).1⟩

/-- Witness for C7: one evaporation-only step of the two-row test table from
a freshly seeded particle. -/
theorem c7_fraction_monotone_bounded_witness :
    exElems.fraction_evaporated 0 ≤
      (updateRun cfgEvapOnly exModel 3600 exEnvCalm exDraws
        exElems).1.fraction_evaporated 0 ∧
    (updateRun cfgEvapOnly exModel 3600 exEnvCalm exDraws
      exElems).1.fraction_evaporated 0 ∈ Set.Icc (0 : ℝ) 1 :=
  c7_fraction_monotone_bounded (fun _ => cfgEvapOnly) exModel (fun _ => 3600)
    (fun _ => exEnvCalm) (fun _ => exDraws) exElems
    (by
      simp only [MonoTable, exModel]
      show List.Chain' _ [((0 : ℝ), (0 : ℝ)), ((3600 : ℝ), (1 / 2 : ℝ))]
      rw [List.chain'_cons]
      refine ⟨⟨by norm_num, by norm_num⟩, ?_⟩
      exact List.chain'_singleton _)
    (by
      intro p hp
      rw [show exModel.tref.zip exModel.fref =
        [((0 : ℝ), (0 : ℝ)), ((3600 : ℝ), (1 / 2 : ℝ))] from rfl] at hp
      simp only [List.mem_cons, List.not_mem_nil, or_false] at hp
      rcases hp with h | h <;> subst h <;>
        exact Set.mem_Icc.mpr ⟨by norm_num, by norm_num⟩)
    (by norm_num [exModel]) (by norm_num [exModel]) (fun _ => by norm_num)
    (fun _ => rfl) 0 1 (by norm_num) exElems
    ((updateRun cfgEvapOnly exModel 3600 exEnvCalm exDraws exElems).1) rfl
    (by
      simp only [trajectory, Option.some_bind]
      rw [update_eq_some_of _ _ _ _ _ _ (by simp [cfgEvapOnly])]
      rfl) 0

end OpenOil

namespace NumOps

theorem applyOpEnv_mem_exempt (op : ℚ → ℚ) (env : List (String × List ℚ))
    (k : String) (vs : List ℚ) (h : (k, vs) ∈ env)
    (hk : k = "x" ∨ k = "y" ∨ k = "time") : (k, vs) ∈ applyOpEnv op env := by
  unfold applyOpEnv
  refine List.mem_map.mpr ⟨(k, vs), h, ?_⟩
  have hc : (k, vs).1 = "x" ∨ (k, vs).1 = "y" ∨ (k, vs).1 = "time" := hk
  rw [if_pos hc]

theorem applyOpEnv_mem_op (op : ℚ → ℚ) (env : List (String × List ℚ))
    (k : String) (vs : List ℚ) (h : (k, vs) ∈ env)
    (hk : ¬ (k = "x" ∨ k = "y" ∨ k = "time")) :
    (k, vs.map op) ∈ applyOpEnv op env := by
  unfold applyOpEnv
  refine List.mem_map.mpr ⟨(k, vs), h, ?_⟩
  have hc : ¬ ((k, vs).1 = "x" ∨ (k, vs).1 = "y" ∨ (k, vs).1 = "time") := hk
  rw [if_neg hc]

/-- C10: every `Combined` reader built by `add`, `mul`, `sub` or `div` with
number `n` returns the wrapped reader's result with the operation applied
elementwise to each variable of both the `env` and the `env_profiles`
dictionaries, except the keys `x`, `y` and `time`, which pass through
unchanged; the number is the right-hand side for `sub` (`x - n`) and `div`
(`x / n`), the left-hand side for `add` and `mul`. -/
theorem c10_combined_number_reader_ops {α : Type} (r : Reader α) (nq : ℚ)
    (args : α) (k : String) (vs : List ℚ) :
    ((k, vs) ∈ (r.getVars args).1 →
      ((k = "x" ∨ k = "y" ∨ k = "time") →
        (k, vs) ∈ ((Combined.add nq r).getVariablesInterpolated args).1 ∧
        (k, vs) ∈ ((Combined.mul nq r).getVariablesInterpolated args).1 ∧
        (k, vs) ∈ ((Combined.sub nq r).getVariablesInterpolated args).1 ∧
        (k, vs) ∈ ((Combined.div nq r).getVariablesInterpolated args).1) ∧
      (¬ (k = "x" ∨ k = "y" ∨ k = "time") →
        (k, vs.map fun x => nq + x) ∈
          ((Combined.add nq r).getVariablesInterpolated args).1 ∧
        (k, vs.map fun x => nq * x) ∈
          ((Combined.mul nq r).getVariablesInterpolated args).1 ∧
        (k, vs.map fun x => x - nq) ∈
          ((Combined.sub nq r).getVariablesInterpolated args).1 ∧
        (k, vs.map fun x => x / nq) ∈
          ((Combined.div nq r).getVariablesInterpolated args).1)) ∧
    ((k, vs) ∈ (r.getVars args).2 →
      ((k = "x" ∨ k = "y" ∨ k = "time") →
        (k, vs) ∈ ((Combined.add nq r).getVariablesInterpolated args).2 ∧
        (k, vs) ∈ ((Combined.mul nq r).getVariablesInterpolated args).2 ∧
        (k, vs) ∈ ((Combined.sub nq r).getVariablesInterpolated args).2 ∧
        (k, vs) ∈ ((Combined.div nq r).getVariablesInterpolated args).2) ∧
      (¬ (k = "x" ∨ k = "y" ∨ k = "time") →
        (k, vs.map fun x => nq + x) ∈
          ((Combined.add nq r).getVariablesInterpolated args).2 ∧
        (k, vs.map fun x => nq * x) ∈
          ((Combined.mul nq r).getVariablesInterpolated args).2 ∧
        (k, vs.map fun x => x - nq) ∈
          ((Combined.sub nq r).getVariablesInterpolated args).2 ∧
        (k, vs.map fun x => x / nq) ∈
          ((Combined.div nq r).getVariablesInterpolated args).2)) := by
  refine ⟨fun h => ⟨fun hk => ?_, fun hk => ?_⟩,
    fun h => ⟨fun hk => ?_, fun hk => ?_⟩⟩
  · exact ⟨applyOpEnv_mem_exempt _ _ _ _ h hk, applyOpEnv_mem_exempt _ _ _ _ h hk,
      applyOpEnv_mem_exempt _ _ _ _ h hk, applyOpEnv_mem_exempt _ _ _ _ h hk⟩
  · exact ⟨applyOpEnv_mem_op _ _ _ _ h hk, applyOpEnv_mem_op _ _ _ _ h hk,
      applyOpEnv_mem_op _ _ _ _ h hk, applyOpEnv_mem_op _ _ _ _ h hk⟩
  · exact ⟨applyOpEnv_mem_exempt _ _ _ _ h hk, applyOpEnv_mem_exempt _ _ _ _ h hk,
      applyOpEnv_mem_exempt _ _ _ _ h hk, applyOpEnv_mem_exempt _ _ _ _ h hk⟩
  · exact ⟨applyOpEnv_mem_op _ _ _ _ h hk, applyOpEnv_mem_op _ _ _ _ h hk,
      applyOpEnv_mem_op _ _ _ _ h hk, applyOpEnv_mem_op _ _ _ _ h hk⟩

/-- Witness for C10: the test reader with number 10, the pass-through key
`x` and the transformed key `temp`. -/
theorem c10_combined_number_reader_ops_witness :
    (("x", [(1 : ℚ)]) ∈
      ((Combined.add 10 exReader).getVariablesInterpolated ()).1 ∧
     ("x", [(1 : ℚ)]) ∈
      ((Combined.mul 10 exReader).getVariablesInterpolated ()).1 ∧
     ("x", [(1 : ℚ)]) ∈
      ((Combined.sub 10 exReader).getVariablesInterpolated ()).1 ∧
     ("x", [(1 : ℚ)]) ∈
      ((Combined.div 10 exReader).getVariablesInterpolated ()).1) ∧
    (("temp", [(2 : ℚ), 3].map fun x => (10 : ℚ) + x) ∈
      ((Combined.add 10 exReader).getVariablesInterpolated ()).1 ∧
     ("temp", [(2 : ℚ), 3].map fun x => (10 : ℚ) * x) ∈
      ((Combined.mul 10 exReader).getVariablesInterpolated ()).1 ∧
     ("temp", [(2 : ℚ), 3].map fun x => x - (10 : ℚ)) ∈
      ((Combined.sub 10 exReader).getVariablesInterpolated ()).1 ∧
     ("temp", [(2 : ℚ), 3].map fun x => x / (10 : ℚ)) ∈
      ((Combined.div 10 exReader).getVariablesInterpolated ()).1) :=
  ⟨(c10_combined_number_reader_ops exReader 10 () "x" [1]).1
      (by simp [exReader]) |>.1 (Or.inl rfl),
   (c10_combined_number_reader_ops exReader 10 () "temp" [2, 3]).1
      (by simp [exReader]) |>.2 (by simp)⟩

end NumOps
